import Mathlib

/-!
Verification of the Agora conversation models and services.

Shallow embedding of the Python sources under `src/models` and
`src/services`:

* datetimes are modelled as integer timestamps (`Timestamp := Int`);
  every Python call to `datetime.now()` inside one method body is
  modelled by a single `now` parameter, and `isoformat` /
  `fromisoformat` as the identity on timestamps;
* `uuid.uuid4()` is modelled by an explicit fresh-id parameter;
* Python dictionaries that only ever pass through unchanged
  (`metadata`, `context`) are modelled as association lists;
* methods that mutate the session object return the new session; a
  method that can raise is modelled with the state paired with an
  optional error, so that the state on the error path is explicit.
-/

abbrev Timestamp := Int

/-- Python list slicing `l[i:]` for a possibly negative index `i`
(`src` uses `messages[-limit:]` and `messages[-(n):]`): a nonnegative
index drops that many elements from the front (clamped), a negative
index keeps the last `-i` elements (clamped).  `Int.toNat` clamps
negatives to `0`, matching Python `max(0, len + i)`. -/
def pyDropIdx (l : List α) (i : Int) : List α :=
  if 0 ≤ i then l.drop i.toNat else l.drop ((l.length : Int) + i).toNat

/-- `src/models/dialogue.py`: `MessageType`. -/
inductive MessageType where
  | user
  | philosopher
  | system
deriving DecidableEq, Repr

/-- `MessageType.value` (the string value of the Python enum member). -/
def MessageType.value : MessageType → String
  | .user => "user"
  | .philosopher => "philosopher"
  | .system => "system"

/-- `MessageType(value)` — the Python enum lookup, `none` models the
`ValueError` raised on an unknown value. -/
def MessageType.ofValue : String → Option MessageType
  | "user" => some .user
  | "philosopher" => some .philosopher
  | "system" => some .system
  | _ => none

/-- `src/models/dialogue.py`: `Message`. -/
structure Message where
  id : String
  type : MessageType
  content : String
  timestamp : Timestamp
  metadata : List (String × String)
deriving DecidableEq, Repr

/-- Python dict update `{**m, k: v}` restricted to what the source
does with it (`add_philosopher_message` forcing the `"speaker"` key):
as a key-to-value map the result maps `k` to `v` and every other key
as `m` does.  We realise it on association lists by removing stale
bindings of `k` and appending the new one. -/
def dictSet (m : List (String × String)) (k v : String) : List (String × String) :=
  m.filter (fun p => p.1 != k) ++ [(k, v)]

/-- The dictionary produced by `Message.to_dict`
(`src/models/dialogue.py` lines 25-33). -/
structure MessageDict where
  id : String
  type : String
  content : String
  timestamp : Timestamp
  metadata : List (String × String)
deriving DecidableEq, Repr

/-- `Message.to_dict`. -/
def Message.to_dict (m : Message) : MessageDict :=
  { id := m.id
    type := m.type.value
    content := m.content
    timestamp := m.timestamp
    metadata := m.metadata }

/-- `Message.from_dict` on a dictionary carrying every key (the shape
`to_dict` emits); `none` models the `ValueError` of `MessageType(...)`
on an unknown type string. -/
def Message.from_dict (d : MessageDict) : Option Message := do
  let ty ← MessageType.ofValue d.type
  pure { id := d.id, type := ty, content := d.content,
         timestamp := d.timestamp, metadata := d.metadata }

/-- `src/models/dialogue.py`: `DialogueSession`. -/
structure DialogueSession where
  id : String
  philosopher_name : String
  messages : List Message
  created_at : Timestamp
  last_activity : Timestamp
  context : List (String × String)
  is_active : Bool
deriving DecidableEq, Repr

namespace DialogueSession

/-- `DialogueSession.add_message`: appends and refreshes `last_activity`. -/
def add_message (s : DialogueSession) (m : Message) (now : Timestamp) : DialogueSession :=
  { s with messages := s.messages ++ [m], last_activity := now }

/-- `DialogueSession.add_user_message`. -/
def add_user_message (s : DialogueSession) (content : String)
    (metadata : List (String × String)) (msgId : String) (now : Timestamp) :
    DialogueSession × Message :=
  let m : Message := { id := msgId, type := .user, content := content,
                       timestamp := now, metadata := metadata }
  (s.add_message m now, m)

/-- `DialogueSession.add_philosopher_message`. -/
def add_philosopher_message (s : DialogueSession) (content : String)
    (metadata : List (String × String)) (msgId : String) (now : Timestamp) :
    DialogueSession × Message :=
  let m : Message := { id := msgId, type := .philosopher, content := content,
                       timestamp := now, metadata := metadata }
  (s.add_message m now, m)

/-- `DialogueSession.add_system_message`. -/
def add_system_message (s : DialogueSession) (content : String)
    (metadata : List (String × String)) (msgId : String) (now : Timestamp) :
    DialogueSession × Message :=
  let m : Message := { id := msgId, type := .system, content := content,
                       timestamp := now, metadata := metadata }
  (s.add_message m now, m)

/-- `DialogueSession.get_recent_messages`:
`self.messages[-limit:] if len(self.messages) > limit else self.messages`. -/
def get_recent_messages (s : DialogueSession) (limit : Nat) : List Message :=
  if limit < s.messages.length then pyDropIdx s.messages (-(limit : Int)) else s.messages

/-- `DialogueSession.clear_history`. -/
def clear_history (s : DialogueSession) (now : Timestamp) : DialogueSession :=
  { s with messages := [], last_activity := now }

/-- `DialogueSession.is_expired`:
`(datetime.now() - self.last_activity).total_seconds() > timeout_seconds`. -/
def is_expired (s : DialogueSession) (timeout_seconds : Int) (now : Timestamp) : Bool :=
  timeout_seconds < now - s.last_activity

end DialogueSession

/-- `src/models/philosopher.py`: `PhilosopherType`. -/
inductive PhilosopherType where
  | socrates
  | plato
  | aristotle
  | confucius
  | marcus_aurelius
  | immanuel_kant
  | friedrich_nietzsche
  | rene_descartes
  | john_locke
  | karl_marx
deriving DecidableEq, Repr

/-- `PhilosopherType.value` (the string value of the Python enum member). -/
def PhilosopherType.value : PhilosopherType → String
  | .socrates => "socrates"
  | .plato => "plato"
  | .aristotle => "aristotle"
  | .confucius => "confucius"
  | .marcus_aurelius => "marcus_aurelius"
  | .immanuel_kant => "kant"
  | .friedrich_nietzsche => "nietzsche"
  | .rene_descartes => "descartes"
  | .john_locke => "locke"
  | .karl_marx => "marx"

/-- `PhilosopherType(value)`; `none` models the `ValueError`. -/
def PhilosopherType.ofValue : String → Option PhilosopherType
  | "socrates" => some .socrates
  | "plato" => some .plato
  | "aristotle" => some .aristotle
  | "confucius" => some .confucius
  | "marcus_aurelius" => some .marcus_aurelius
  | "kant" => some .immanuel_kant
  | "nietzsche" => some .friedrich_nietzsche
  | "descartes" => some .rene_descartes
  | "locke" => some .john_locke
  | "marx" => some .karl_marx
  | _ => none

/-- `src/models/debate.py`: `DebateStatus`. -/
inductive DebateStatus where
  | preparing
  | active
  | paused
  | completed
deriving DecidableEq, Repr

/-- `DebateStatus.value`. -/
def DebateStatus.value : DebateStatus → String
  | .preparing => "preparing"
  | .active => "active"
  | .paused => "paused"
  | .completed => "completed"

/-- `DebateStatus(value)`; `none` models the `ValueError`. -/
def DebateStatus.ofValue : String → Option DebateStatus
  | "preparing" => some .preparing
  | "active" => some .active
  | "paused" => some .paused
  | "completed" => some .completed
  | _ => none

/-- `src/models/debate.py`: `DebateParticipant`. -/
structure DebateParticipant where
  philosopher_type : PhilosopherType
  name : String
  position : String
  turn_count : Nat
  last_response_time : Option Timestamp
deriving DecidableEq, Repr

/-- The dictionary produced by `DebateParticipant.to_dict`. -/
structure DebateParticipantDict where
  philosopher_type : String
  name : String
  position : String
  turn_count : Nat
  last_response_time : Option Timestamp
deriving DecidableEq, Repr

/-- `DebateParticipant.to_dict`. -/
def DebateParticipant.to_dict (p : DebateParticipant) : DebateParticipantDict :=
  { philosopher_type := p.philosopher_type.value
    name := p.name
    position := p.position
    turn_count := p.turn_count
    last_response_time := p.last_response_time }

/-- `DebateParticipant.from_dict` on a dictionary carrying every key. -/
def DebateParticipant.from_dict (d : DebateParticipantDict) : Option DebateParticipant := do
  let ty ← PhilosopherType.ofValue d.philosopher_type
  pure { philosopher_type := ty, name := d.name, position := d.position,
         turn_count := d.turn_count, last_response_time := d.last_response_time }

/-- `src/models/debate.py`: `DebateSession`. -/
structure DebateSession where
  id : String
  topic : String
  description : String
  participants : List DebateParticipant
  messages : List Message
  current_speaker_index : Nat
  status : DebateStatus
  created_at : Timestamp
  started_at : Option Timestamp
  completed_at : Option Timestamp
  last_activity : Timestamp
  max_turns_per_participant : Nat
  context : List (String × String)
  moderator_enabled : Bool
deriving DecidableEq, Repr

namespace DebateSession

/-- `DebateSession.add_message`: appends and refreshes `last_activity`. -/
def add_message (s : DebateSession) (m : Message) (now : Timestamp) : DebateSession :=
  { s with messages := s.messages ++ [m], last_activity := now }

/-- The `for participant in self.participants: ... break` loop of
`add_philosopher_message`: bump the first participant whose name
matches, leave everything else alone. -/
def bumpFirst (name : String) (now : Timestamp) :
    List DebateParticipant → List DebateParticipant
  | [] => []
  | p :: ps =>
      if p.name = name then
        { p with turn_count := p.turn_count + 1, last_response_time := some now } :: ps
      else
        p :: bumpFirst name now ps

/-- `DebateSession.add_philosopher_message` (`src/models/debate.py`
lines 100-116): append a philosopher message whose metadata carries
the speaker, then bump the first matching participant. -/
def add_philosopher_message (s : DebateSession) (philosopher_name content : String)
    (metadata : List (String × String)) (msgId : String) (now : Timestamp) :
    DebateSession × Message :=
  let m : Message := { id := msgId, type := .philosopher, content := content,
                       timestamp := now, metadata := dictSet metadata "speaker" philosopher_name }
  let s1 := s.add_message m now
  ({ s1 with participants := bumpFirst philosopher_name now s1.participants }, m)

/-- `DebateSession.add_user_message`. -/
def add_user_message (s : DebateSession) (content : String)
    (metadata : List (String × String)) (msgId : String) (now : Timestamp) :
    DebateSession × Message :=
  let m : Message := { id := msgId, type := .user, content := content,
                       timestamp := now, metadata := metadata }
  (s.add_message m now, m)

/-- `DebateSession.add_system_message`. -/
def add_system_message (s : DebateSession) (content : String)
    (metadata : List (String × String)) (msgId : String) (now : Timestamp) :
    DebateSession × Message :=
  let m : Message := { id := msgId, type := .system, content := content,
                       timestamp := now, metadata := metadata }
  (s.add_message m now, m)

/-- The opening system message text of `start_debate`. -/
def openingMessage (topic : String) (count : Nat) (names : String) : String :=
  "Debate on \x27" ++ topic ++ "\x27 has begun with " ++ toString count ++
    " participants: " ++ names

/-- `DebateSession.start_debate` (`src/models/debate.py` lines 82-93).
The `raise ValueError` is the first statement of the method, so on the
error path the session is returned untouched. -/
def start_debate (s : DebateSession) (msgId : String) (now : Timestamp) :
    DebateSession × Option String :=
  if s.participants.length < 2 then
    (s, some "At least 2 participants required for a debate")
  else
    let names := String.intercalate ", " (s.participants.map (fun p => p.name))
    let s1 := { s with status := DebateStatus.active,
                       started_at := some now, last_activity := now }
    ((s1.add_system_message (openingMessage s.topic s.participants.length names)
        [] msgId now).1, none)

/-- `DebateSession.get_current_speaker`:
`None` unless the session is active and has participants; Python then
indexes `participants[current_speaker_index]` (an out-of-range index
raises, modelled by `none` of the safe lookup). -/
def get_current_speaker (s : DebateSession) : Option DebateParticipant :=
  if s.participants.isEmpty || s.status ≠ DebateStatus.active then none
  else s.participants.get? s.current_speaker_index

/-- The state effect of `DebateSession.advance_speaker`
(`src/models/debate.py` lines 145-151):
`current_speaker_index = (current_speaker_index + 1) % len(participants)`
when there are participants, nothing otherwise. -/
def advance_speaker (s : DebateSession) : DebateSession :=
  if s.participants.isEmpty then s
  else { s with current_speaker_index :=
                  (s.current_speaker_index + 1) % s.participants.length }

/-- `DebateSession.is_debate_complete` (`src/models/debate.py` lines
153-163): `False` unless active; `False` if some participant is below
`max_turns_per_participant`; `True` otherwise. -/
def is_debate_complete (s : DebateSession) : Bool :=
  if s.status ≠ DebateStatus.active then false
  else s.participants.all (fun p => decide (s.max_turns_per_participant ≤ p.turn_count))

/-- The closing system message text of `complete_debate`. -/
def closingMessage (topic : String) (maxTurns : Nat) : String :=
  "Debate on \x27" ++ topic ++ "\x27 has concluded. Each participant made " ++
    toString maxTurns ++ " contributions."

/-- `DebateSession.complete_debate` (`src/models/debate.py` lines
165-172). -/
def complete_debate (s : DebateSession) (msgId : String) (now : Timestamp) : DebateSession :=
  let s1 := { s with status := DebateStatus.completed, completed_at := some now }
  (s1.add_system_message (closingMessage s.topic s.max_turns_per_participant)
      [] msgId now).1

/-- `DebateSession.pause_debate` (`src/models/debate.py` lines
174-176): sets `PAUSED` unconditionally, whatever the current status. -/
def pause_debate (s : DebateSession) : DebateSession :=
  { s with status := DebateStatus.paused }

/-- `DebateSession.resume_debate` (`src/models/debate.py` lines
178-182): only acts when the status is `PAUSED`. -/
def resume_debate (s : DebateSession) (now : Timestamp) : DebateSession :=
  if s.status = DebateStatus.paused then
    { s with status := DebateStatus.active, last_activity := now }
  else s

end DebateSession

namespace DebateService

/-- The in-character fallback line of
`DebateService._generate_debate_response` when the generation backend
raises. -/
def debateFallbackLine : String :=
  "I find this discussion most intriguing, though I must reflect further on the points raised."

/-- `DebateService._generate_debate_response` (`src/services/debate_service.py`
lines 198-235), abstracted over the backend outcome: the call to
`ai_service.generate_response_sync` either returns text or raises, and
the surrounding `try/except` turns any raise into the fallback line.
Prompt construction is pure string work that the claims never observe. -/
def generateDebateResponse (aiResult : Except String String) : String :=
  match aiResult with
  | .ok text => text
  | .error _ => debateFallbackLine

/-- `DebateService._generate_closing_summary` fallback behaviour,
abstracted the same way. -/
def generateClosingSummary (aiResult : Except String String) (topic : String) : String :=
  match aiResult with
  | .ok text => text
  | .error _ =>
      "The debate on " ++ topic ++
        " has concluded. Each philosopher presented their unique perspective, contributing to a rich philosophical dialogue."

/-- `DebateService.get_next_response` (`src/services/debate_service.py`
lines 106-144).  `aiResult` is the outcome of the generation backend
for this turn and `closingAi` the outcome for a closing summary; the
user input only influences prompt text, which the claims never
observe.  The dead outer `except GeminiServiceError` branch is
unreachable because `_generate_debate_response` and
`_generate_closing_summary` catch every exception themselves. -/
def get_next_response (s : DebateSession) (aiResult closingAi : Except String String)
    (msgId : String) (now : Timestamp) : DebateSession × Option String :=
  if s.status ≠ DebateStatus.active then (s, none)
  else
    match s.get_current_speaker with
    | none => (s, none)
    | some speaker =>
        if s.is_debate_complete then
          (s.complete_debate msgId now, some (generateClosingSummary closingAi s.topic))
        else
          let response := generateDebateResponse aiResult
          let s1 := (s.add_philosopher_message speaker.name response [] msgId now).1
          (s1.advance_speaker, some response)

end DebateService

namespace DialogueService

/-- `DialogueService._trim_session_history`
(`src/services/dialogue_service.py` lines 164-171): when the log
exceeds `max_history_length * 2` messages, keep the first message and
the `max_history_length * 2 - 1` most recent ones. -/
def trimSessionHistory (max_history_length : Nat) (s : DialogueSession) : DialogueSession :=
  if max_history_length * 2 < s.messages.length then
    let recent := pyDropIdx s.messages (-((max_history_length : Int) * 2 - 1))
    match s.messages.head? with
    | some welcome => { s with messages := welcome :: recent }
    | none => { s with messages := recent }
  else s

/-- The fallback reply of `DialogueService.send_message` when the
backend raises `GeminiServiceError`. -/
def dialogueErrorReply (e : String) : String :=
  "I apologize, but I\x27m having trouble formulating a response right now. Error: " ++ e

/-- `DialogueService.send_message` (`src/services/dialogue_service.py`
lines 46-90), abstracted over the backend outcome: append the user
message, then either append the generated reply and trim the history,
or (on `GeminiServiceError`) append the fallback reply and return
early without trimming. -/
def send_message (max_history_length : Nat) (s : DialogueSession) (userMsg : String)
    (aiResult : Except String String) (userMsgId replyMsgId : String) (now : Timestamp) :
    DialogueSession × Message :=
  let s1 := (s.add_user_message userMsg [] userMsgId now).1
  match aiResult with
  | .ok response =>
      let (s2, reply) := s1.add_philosopher_message response [] replyMsgId now
      (trimSessionHistory max_history_length s2, reply)
  | .error e =>
      s1.add_philosopher_message (dialogueErrorReply e) [] replyMsgId now

end DialogueService

/-- The loop of `DebateSession.from_dict` that rebuilds a list element
by element, stopping with the `ValueError` (`none`) of the first bad
element. -/
def listFromDict (g : β → Option α) : List β → Option (List α)
  | [] => some []
  | d :: ds => do
      let a ← g d
      let as ← listFromDict g ds
      pure (a :: as)

/-- The dictionary produced by `DebateSession.to_dict`
(`src/models/debate.py` lines 231-248). -/
structure DebateSessionDict where
  id : String
  topic : String
  description : String
  participants : List DebateParticipantDict
  messages : List MessageDict
  current_speaker_index : Nat
  status : String
  created_at : Timestamp
  started_at : Option Timestamp
  completed_at : Option Timestamp
  last_activity : Timestamp
  max_turns_per_participant : Nat
  context : List (String × String)
  moderator_enabled : Bool
deriving DecidableEq, Repr

/-- `DebateSession.to_dict`. -/
def DebateSession.to_dict (s : DebateSession) : DebateSessionDict :=
  { id := s.id
    topic := s.topic
    description := s.description
    participants := s.participants.map DebateParticipant.to_dict
    messages := s.messages.map Message.to_dict
    current_speaker_index := s.current_speaker_index
    status := s.status.value
    created_at := s.created_at
    started_at := s.started_at
    completed_at := s.completed_at
    last_activity := s.last_activity
    max_turns_per_participant := s.max_turns_per_participant
    context := s.context
    moderator_enabled := s.moderator_enabled }

/-- `DebateSession.from_dict` (`src/models/debate.py` lines 250-277)
on a dictionary carrying every key: parse the status, then rebuild the
participants and the messages in order; `none` models the
`ValueError` of a bad enum value. -/
def DebateSession.from_dict (d : DebateSessionDict) : Option DebateSession := do
  let st ← DebateStatus.ofValue d.status
  let ps ← listFromDict DebateParticipant.from_dict d.participants
  let ms ← listFromDict Message.from_dict d.messages
  pure { id := d.id, topic := d.topic, description := d.description,
         participants := ps, messages := ms,
         current_speaker_index := d.current_speaker_index, status := st,
         created_at := d.created_at, started_at := d.started_at,
         completed_at := d.completed_at, last_activity := d.last_activity,
         max_turns_per_participant := d.max_turns_per_participant,
         context := d.context, moderator_enabled := d.moderator_enabled }

/-! Concrete sessions used to instantiate the theorems. -/

def demoSocrates : DebateParticipant :=
  { philosopher_type := .socrates, name := "Socrates", position := "",
    turn_count := 0, last_response_time := none }

def demoPlato : DebateParticipant :=
  { philosopher_type := .plato, name := "Plato", position := "",
    turn_count := 0, last_response_time := none }

def demoActiveDebate : DebateSession :=
  { id := "d1", topic := "truth", description := "",
    participants := [demoSocrates, demoPlato], messages := [],
    current_speaker_index := 0, status := .active, created_at := 0,
    started_at := some 0, completed_at := none, last_activity := 0,
    max_turns_per_participant := 3, context := [], moderator_enabled := true }

def demoCompletedDebate : DebateSession :=
  { demoActiveDebate with status := .completed }

def demoPreparingDebate : DebateSession :=
  { demoActiveDebate with status := .preparing, started_at := none }

def demoSoloDebate : DebateSession :=
  { demoPreparingDebate with participants := [demoSocrates] }

def demoFullDebate : DebateSession :=
  { demoActiveDebate with
      participants := [{ demoSocrates with turn_count := 3 },
                       { demoPlato with turn_count := 3 }] }

def demoMsg (i c : String) : Message :=
  { id := i, type := .philosopher, content := c, timestamp := 0, metadata := [] }

def demoDialogueOne : DialogueSession :=
  { id := "s1", philosopher_name := "Socrates", messages := [demoMsg "d0" "hello"],
    created_at := 0, last_activity := 0, context := [], is_active := true }

def demoDialogueTwo : DialogueSession :=
  { id := "s2", philosopher_name := "Socrates",
    messages := [demoMsg "d0" "hello", demoMsg "d1" "world"],
    created_at := 0, last_activity := 0, context := [], is_active := true }

/-! Helper lemmas. -/

lemma pyDropIdx_neg (l : List α) (k : Nat) (hk : 1 ≤ k) :
    pyDropIdx l (-(k : Int)) = l.drop (l.length - k) := by
  unfold pyDropIdx
  rw [if_neg (by omega)]
  congr 1
  omega

lemma advance_speaker_participants (s : DebateSession) :
    s.advance_speaker.participants = s.participants := by
  unfold DebateSession.advance_speaker
  split <;> rfl

lemma advance_speaker_messages (s : DebateSession) :
    s.advance_speaker.messages = s.messages := by
  unfold DebateSession.advance_speaker
  split <;> rfl

lemma advance_speaker_index (s : DebateSession) (h : s.participants.isEmpty = false) :
    s.advance_speaker.current_speaker_index =
      (s.current_speaker_index + 1) % s.participants.length := by
  unfold DebateSession.advance_speaker
  rw [h]
  simp

lemma iterate_advance_participants (s : DebateSession) (N : Nat) :
    (DebateSession.advance_speaker^[N] s).participants = s.participants := by
  induction N with
  | zero => rfl
  | succ n ih => rw [Function.iterate_succ_apply', advance_speaker_participants, ih]

lemma bumpFirst_length (name : String) (now : Timestamp) (ps : List DebateParticipant) :
    (DebateSession.bumpFirst name now ps).length = ps.length := by
  induction ps with
  | nil => rfl
  | cons p ps ih =>
      unfold DebateSession.bumpFirst
      split <;> simp [ih]

lemma bumpFirst_isEmpty (name : String) (now : Timestamp) (ps : List DebateParticipant) :
    (DebateSession.bumpFirst name now ps).isEmpty = ps.isEmpty := by
  cases ps with
  | nil => rfl
  | cons p ps =>
      unfold DebateSession.bumpFirst
      split <;> rfl

lemma bumpFirst_no_match (name : String) (now : Timestamp) (ps : List DebateParticipant)
    (h : ∀ p ∈ ps, p.name ≠ name) : DebateSession.bumpFirst name now ps = ps := by
  induction ps with
  | nil => rfl
  | cons p ps ih =>
      unfold DebateSession.bumpFirst
      rw [if_neg (h p (by simp))]
      rw [ih (fun q hq => h q (by simp [hq]))]

lemma bumpFirst_first_match (name : String) (now : Timestamp)
    (l1 : List DebateParticipant) (p : DebateParticipant) (l2 : List DebateParticipant)
    (h1 : ∀ q ∈ l1, q.name ≠ name) (hp : p.name = name) :
    DebateSession.bumpFirst name now (l1 ++ p :: l2) =
      l1 ++ { p with turn_count := p.turn_count + 1, last_response_time := some now } :: l2 := by
  induction l1 with
  | nil =>
      simp only [List.nil_append]
      unfold DebateSession.bumpFirst
      rw [if_pos hp]
  | cons q l1 ih =>
      simp only [List.cons_append]
      unfold DebateSession.bumpFirst
      rw [if_neg (h1 q (by simp))]
      rw [ih (fun r hr => h1 r (by simp [hr]))]

lemma lookup_dictSet (m : List (String × String)) (k v : String) :
    (dictSet m k v).lookup k = some v := by
  unfold dictSet
  induction m with
  | nil => simp [List.lookup]
  | cons a m ih =>
      by_cases h : a.1 = k
      · simp only [List.filter_cons]
        rw [show (a.1 != k) = false by simp [h]]
        exact ih
      · simp only [List.filter_cons]
        rw [show (a.1 != k) = true by simp [h]]
        simp only [List.cons_append, List.lookup]
        rw [show (k == a.1) = false by simp [Ne.symm h]]
        exact ih

lemma messageType_roundtrip (t : MessageType) : MessageType.ofValue t.value = some t := by
  cases t <;> rfl

lemma philosopherType_roundtrip (t : PhilosopherType) :
    PhilosopherType.ofValue t.value = some t := by
  cases t <;> rfl

lemma debateStatus_roundtrip (st : DebateStatus) : DebateStatus.ofValue st.value = some st := by
  cases st <;> rfl

lemma message_roundtrip (m : Message) : Message.from_dict m.to_dict = some m := by
  cases m with
  | mk id ty content ts meta =>
      simp [Message.to_dict, Message.from_dict, messageType_roundtrip]

lemma participant_roundtrip (p : DebateParticipant) :
    DebateParticipant.from_dict p.to_dict = some p := by
  cases p with
  | mk ty name pos tc lrt =>
      simp [DebateParticipant.to_dict, DebateParticipant.from_dict, philosopherType_roundtrip]

lemma listFromDict_roundtrip (f : α → β) (g : β → Option α)
    (h : ∀ a, g (f a) = some a) (l : List α) : listFromDict g (l.map f) = some l := by
  induction l with
  | nil => rfl
  | cons a l ih => simp [listFromDict, h, ih]

/-! Claim theorems. -/

/-- Claim C1: for every `DebateSession` with at least one participant
whose `current_speaker_index` starts at `0`, after `advance_speaker`
is called `N` times `current_speaker_index = N % participantCount`;
each call sets the index to `(index + 1) % participantCount`, a strict
round-robin with no skipping. -/
theorem debate_round_robin (s : DebateSession) (N : Nat)
    (hP : 1 ≤ s.participants.length) (h0 : s.current_speaker_index = 0) :
    (DebateSession.advance_speaker^[N] s).current_speaker_index =
      N % s.participants.length := by
  have hE : s.participants.isEmpty = false := by
    cases hl : s.participants with
    | nil => rw [hl] at hP; simp at hP
    | cons a l => rfl
  induction N with
  | zero => simp [h0]
  | succ n ih =>
      rw [Function.iterate_succ_apply']
      rw [advance_speaker_index _ (by rw [iterate_advance_participants]; exact hE)]
      rw [iterate_advance_participants, ih, Nat.mod_add_mod]

/-- Witness for C1 at a concrete two-participant session and three calls. -/
theorem debate_round_robin_witness :
    (DebateSession.advance_speaker^[3] demoActiveDebate).current_speaker_index =
      3 % demoActiveDebate.participants.length :=
  debate_round_robin demoActiveDebate 3 (by decide) rfl

/-- Claim C2: `start_debate` fails with the descriptive `ValueError`
exactly when there are fewer than 2 participants, and on that failure
the session is returned with every field untouched; with at least 2
participants it sets the status to `active`, sets `started_at` and
`last_activity`, and appends exactly one system message. -/
theorem start_debate_spec (s : DebateSession) (msgId : String) (now : Timestamp) :
    (s.participants.length < 2 →
        s.start_debate msgId now =
          (s, some "At least 2 participants required for a debate")) ∧
    (2 ≤ s.participants.length →
        s.start_debate msgId now =
          ({ s with status := DebateStatus.active,
                    started_at := some now,
                    last_activity := now,
                    messages := s.messages ++
                      [{ id := msgId, type := MessageType.system,
                         content := DebateSession.openingMessage s.topic
                           s.participants.length
                           (String.intercalate ", " (s.participants.map (fun p => p.name))),
                         timestamp := now, metadata := [] }] }, none)) := by
  constructor
  · intro h
    unfold DebateSession.start_debate
    rw [if_pos h]
  · intro h
    unfold DebateSession.start_debate
    rw [if_neg (by omega)]
    rfl

/-- Witness for C2: the one-participant session fails without being
touched, the two-participant session starts and gains one message. -/
theorem start_debate_spec_witness :
    demoSoloDebate.start_debate "m" 1 =
      (demoSoloDebate, some "At least 2 participants required for a debate") ∧
    (demoPreparingDebate.start_debate "m" 1).2 = none ∧
    (demoPreparingDebate.start_debate "m" 1).1.messages.length = 1 := by
  refine ⟨(start_debate_spec demoSoloDebate "m" 1).1 (by decide), ?_, ?_⟩
  · rw [(start_debate_spec demoPreparingDebate "m" 1).2 (by decide)]
  · rw [(start_debate_spec demoPreparingDebate "m" 1).2 (by decide)]
    rfl

/-- Claim C3: `is_debate_complete` is `true` exactly when the status
is `active` and every participant has reached
`max_turns_per_participant`; for any other status it is `false`
whatever the turn counts.  It is a plain function of the session, so
it mutates nothing and in particular never changes the status. -/
theorem is_debate_complete_spec (s : DebateSession) :
    s.is_debate_complete = true ↔
      (s.status = DebateStatus.active ∧
        ∀ p ∈ s.participants, s.max_turns_per_participant ≤ p.turn_count) := by
  unfold DebateSession.is_debate_complete
  by_cases h : s.status = DebateStatus.active
  · simp [h]
  · simp [h]

/-- Witness for C3 at a session where both participants have
exhausted their turns. -/
theorem is_debate_complete_witness : demoFullDebate.is_debate_complete = true :=
  (is_debate_complete_spec demoFullDebate).2 ⟨rfl, by decide⟩

/-- Claim C4 counterexample: `pause_debate` on a COMPLETED session
sets the status to PAUSED, so a sequence of the listed operations does
leave COMPLETED. -/
theorem completed_not_terminal_cex :
    demoCompletedDebate.status = DebateStatus.completed ∧
    demoCompletedDebate.pause_debate.status ≠ DebateStatus.completed := by
  exact ⟨rfl, by decide⟩

/-- Claim C4 amended: COMPLETED is preserved by `resume_debate` (which
only acts on PAUSED) and by `complete_debate`, but `pause_debate`
unconditionally moves any session — a COMPLETED one included — to
PAUSED (and `start_debate` with at least 2 participants moves any
session to ACTIVE), so COMPLETED is not terminal. -/
theorem completed_terminal_amended (s : DebateSession) (msgId : String) (now : Timestamp)
    (h : s.status = DebateStatus.completed) :
    (s.resume_debate now).status = DebateStatus.completed ∧
    (s.complete_debate msgId now).status = DebateStatus.completed ∧
    s.pause_debate.status = DebateStatus.paused := by
  refine ⟨?_, rfl, rfl⟩
  unfold DebateSession.resume_debate
  rw [if_neg (by rw [h]; decide)]
  exact h

/-- Witness for C4 (amended) at the concrete completed session. -/
theorem completed_terminal_witness :
    (demoCompletedDebate.resume_debate 5).status = DebateStatus.completed ∧
    (demoCompletedDebate.complete_debate "m" 5).status = DebateStatus.completed ∧
    demoCompletedDebate.pause_debate.status = DebateStatus.paused :=
  completed_terminal_amended demoCompletedDebate "m" 5 rfl

/-- Claim C5: when the generation backend fails during a debate turn,
`get_next_response` still appends a fallback message attributed to the
current speaker and still advances the rotation; the caller receives
the placeholder line rather than an exception. -/
theorem get_next_response_fallback (s : DebateSession) (err : String)
    (closingAi : Except String String) (msgId : String) (now : Timestamp)
    (speaker : DebateParticipant)
    (hact : s.status = DebateStatus.active)
    (hsp : s.get_current_speaker = some speaker)
    (hnc : s.is_debate_complete = false) :
    (DebateService.get_next_response s (Except.error err) closingAi msgId now).2 =
        some DebateService.debateFallbackLine ∧
    (DebateService.get_next_response s (Except.error err) closingAi msgId now).1.messages =
        s.messages ++
          [{ id := msgId, type := MessageType.philosopher,
             content := DebateService.debateFallbackLine, timestamp := now,
             metadata := dictSet [] "speaker" speaker.name }] ∧
    (DebateService.get_next_response s (Except.error err) closingAi msgId now).1.current_speaker_index =
        (s.current_speaker_index + 1) % s.participants.length := by
  have hE : s.participants.isEmpty = false := by
    unfold DebateSession.get_current_speaker at hsp
    by_cases hI : s.participants.isEmpty = true
    · rw [if_pos (by rw [hI]; rfl)] at hsp
      exact absurd hsp (by simp)
    · exact Bool.eq_false_iff.mpr hI
  have hmain : DebateService.get_next_response s (Except.error err) closingAi msgId now =
      (((s.add_philosopher_message speaker.name DebateService.debateFallbackLine
          [] msgId now).1).advance_speaker, some DebateService.debateFallbackLine) := by
    unfold DebateService.get_next_response
    rw [if_neg (by rw [hact]; simp), hsp]
    dsimp only
    rw [if_neg (by rw [hnc]; simp)]
    rfl
  rw [hmain]
  have hE2 : (s.add_philosopher_message speaker.name DebateService.debateFallbackLine
      [] msgId now).1.participants.isEmpty = false := by
    show (DebateSession.bumpFirst speaker.name now s.participants).isEmpty = false
    rw [bumpFirst_isEmpty]
    exact hE
  refine ⟨rfl, ?_, ?_⟩
  · rw [advance_speaker_messages]
    rfl
  · rw [advance_speaker_index _ hE2]
    show (s.current_speaker_index + 1) %
        (DebateSession.bumpFirst speaker.name now s.participants).length = _
    rw [bumpFirst_length]

/-- Witness for C5: a failing backend on the concrete active session
appends the fallback line for Socrates and moves the rotation to the
next speaker. -/
theorem get_next_response_fallback_witness :
    (DebateService.get_next_response demoActiveDebate (Except.error "boom")
        (Except.ok "sum") "m" 9).2 = some DebateService.debateFallbackLine ∧
    (DebateService.get_next_response demoActiveDebate (Except.error "boom")
        (Except.ok "sum") "m" 9).1.current_speaker_index =
      (demoActiveDebate.current_speaker_index + 1) % demoActiveDebate.participants.length := by
  have h := get_next_response_fallback demoActiveDebate "boom" (Except.ok "sum") "m" 9
    demoSocrates rfl (by decide) (by decide)
  exact ⟨h.1, h.2.2⟩

/-- Claim C6: serializing a `DebateSession` with `to_dict` and reading
it back with `from_dict` reproduces the session exactly — in
particular the same topic, the same participants in the same order
with the same turn counts, the same messages in the same order, the
same status, `current_speaker_index` and `max_turns_per_participant`. -/
theorem debate_session_roundtrip (s : DebateSession) :
    DebateSession.from_dict s.to_dict = some s := by
  cases s with
  | mk id topic desc ps ms idx st ca sa comp la mx ctx mod =>
      simp [DebateSession.to_dict, DebateSession.from_dict, debateStatus_roundtrip,
            listFromDict_roundtrip DebateParticipant.to_dict DebateParticipant.from_dict
              participant_roundtrip,
            listFromDict_roundtrip Message.to_dict Message.from_dict message_roundtrip]

/-- Claim C7: `add_philosopher_message` appends exactly one message
whose metadata carries the speaker name; the first participant whose
name matches — and only that one — gets its `turn_count` incremented
by exactly 1 and its `last_response_time` set; with no matching name
the participants are untouched while the message is still appended. -/
theorem add_philosopher_message_spec (s : DebateSession) (name content : String)
    (meta : List (String × String)) (msgId : String) (now : Timestamp) :
    (s.add_philosopher_message name content meta msgId now).1.messages =
        s.messages ++ [(s.add_philosopher_message name content meta msgId now).2] ∧
    (s.add_philosopher_message name content meta msgId now).2.metadata.lookup "speaker" =
        some name ∧
    (s.add_philosopher_message name content meta msgId now).2.type = MessageType.philosopher ∧
    (s.add_philosopher_message name content meta msgId now).2.content = content ∧
    ((∀ p ∈ s.participants, p.name ≠ name) →
        (s.add_philosopher_message name content meta msgId now).1.participants =
          s.participants) ∧
    (∀ l1 p l2, s.participants = l1 ++ p :: l2 → (∀ q ∈ l1, q.name ≠ name) →
        p.name = name →
        (s.add_philosopher_message name content meta msgId now).1.participants =
          l1 ++ { p with turn_count := p.turn_count + 1,
                         last_response_time := some now } :: l2) := by
  refine ⟨rfl, lookup_dictSet meta "speaker" name, rfl, rfl, ?_, ?_⟩
  · intro h
    show DebateSession.bumpFirst name now s.participants = s.participants
    exact bumpFirst_no_match name now s.participants h
  · intro l1 p l2 hsplit h1 hp
    show DebateSession.bumpFirst name now s.participants = _
    rw [hsplit]
    exact bumpFirst_first_match name now l1 p l2 h1 hp

/-- Witness for C7: on the concrete session, speaking as Plato bumps
only Plato (the first and only match, behind Socrates) and tags the
message with the speaker. -/
theorem add_philosopher_message_witness :
    (demoActiveDebate.add_philosopher_message "Plato" "hi" [] "m" 4).1.participants =
      [demoSocrates, { demoPlato with turn_count := demoPlato.turn_count + 1,
                                      last_response_time := some 4 }] ∧
    (demoActiveDebate.add_philosopher_message "Plato" "hi" [] "m" 4).2.metadata.lookup
        "speaker" = some "Plato" := by
  have h := add_philosopher_message_spec demoActiveDebate "Plato" "hi" [] "m" 4
  exact ⟨h.2.2.2.2.2 [demoSocrates] demoPlato [] rfl (by decide) rfl, h.2.1⟩

/-- Claim C8 counterexample: processing a message through the
dialogue service can drop earlier log entries.  With
`max_history_length = 1`, `send_message` on a two-message session
appends two messages and then trims the log down to the first message
plus the most recent one, losing the second original message. -/
theorem dialogue_trim_drops_cex :
    demoMsg "d1" "world" ∈ demoDialogueTwo.messages ∧
    demoMsg "d1" "world" ∉
      (DialogueService.send_message 1 demoDialogueTwo "hi" (Except.ok "resp")
        "u1" "r1" 5).1.messages ∧
    (DialogueService.send_message 1 demoDialogueTwo "hi" (Except.ok "resp")
        "u1" "r1" 5).1.messages.length < demoDialogueTwo.messages.length + 2 := by
  decide

/-- Claim C8 amended: the `DebateSession` log is append-only — every
debate operation leaves the existing messages in place and at most
appends — and the dialogue message-append operations are append-only
too; but for dialogue sessions, besides the explicit `clear_history`,
the service's `send_message` also removes messages: when the log
exceeds `2 * max_history_length` entries it keeps only the first
message and the most recent `2 * max_history_length - 1`. -/
theorem append_only_spec (sd : DebateSession) (ds : DialogueSession) (m : Message)
    (name content : String) (meta : List (String × String)) (msgId : String)
    (now : Timestamp) (aiResult closingAi : Except String String) :
    (∃ t, (sd.add_message m now).messages = sd.messages ++ t) ∧
    (∃ t, (sd.add_philosopher_message name content meta msgId now).1.messages =
            sd.messages ++ t) ∧
    (∃ t, (sd.add_user_message content meta msgId now).1.messages = sd.messages ++ t) ∧
    (∃ t, (sd.add_system_message content meta msgId now).1.messages = sd.messages ++ t) ∧
    (∃ t, (sd.start_debate msgId now).1.messages = sd.messages ++ t) ∧
    (∃ t, (sd.complete_debate msgId now).messages = sd.messages ++ t) ∧
    sd.pause_debate.messages = sd.messages ∧
    (sd.resume_debate now).messages = sd.messages ∧
    sd.advance_speaker.messages = sd.messages ∧
    (∃ t, (DebateService.get_next_response sd aiResult closingAi msgId now).1.messages =
            sd.messages ++ t) ∧
    (∃ t, (ds.add_message m now).messages = ds.messages ++ t) ∧
    (∃ t, (ds.add_user_message content meta msgId now).1.messages = ds.messages ++ t) ∧
    (∃ t, (ds.add_philosopher_message content meta msgId now).1.messages =
            ds.messages ++ t) ∧
    (∃ t, (ds.add_system_message content meta msgId now).1.messages = ds.messages ++ t) := by
  refine ⟨⟨[m], rfl⟩, ⟨_, rfl⟩, ⟨_, rfl⟩, ⟨_, rfl⟩, ?_, ⟨_, rfl⟩, rfl, ?_,
          advance_speaker_messages sd, ?_, ⟨[m], rfl⟩, ⟨_, rfl⟩, ⟨_, rfl⟩, ⟨_, rfl⟩⟩
  · unfold DebateSession.start_debate
    split
    · exact ⟨[], (List.append_nil sd.messages).symm⟩
    · exact ⟨_, rfl⟩
  · unfold DebateSession.resume_debate
    split <;> rfl
  · unfold DebateService.get_next_response
    split
    · exact ⟨[], (List.append_nil sd.messages).symm⟩
    · cases hsp : sd.get_current_speaker with
      | none => exact ⟨[], (List.append_nil sd.messages).symm⟩
      | some sp =>
          dsimp only
          split
          · exact ⟨_, rfl⟩
          · rw [advance_speaker_messages]
            exact ⟨_, rfl⟩

/-- Claim C9 counterexample: with a one-message log,
`get_recent_messages 0` returns the whole log — one message, not the
zero messages the claim requires — because Python `messages[-0:]` is
`messages[0:]`. -/
theorem get_recent_messages_zero_cex :
    demoDialogueOne.get_recent_messages 0 = demoDialogueOne.messages ∧
    demoDialogueOne.messages.length = 1 := by
  exact ⟨rfl, rfl⟩

/-- Claim C9 amended: `get_recent_messages limit` is pure and returns,
for `limit ≥ 1`, exactly the last `limit` messages in log order (the
whole log when `limit ≥ length`); but for `limit = 0` it returns the
entire log rather than zero messages, because `messages[-0:]` is the
whole list in Python. -/
theorem get_recent_messages_spec (s : DialogueSession) (limit : Nat) :
    s.get_recent_messages limit =
      if limit = 0 then s.messages
      else s.messages.drop (s.messages.length - limit) := by
  unfold DialogueSession.get_recent_messages
  by_cases h0 : limit = 0
  · subst h0
    rw [if_pos rfl]
    split
    · show pyDropIdx s.messages 0 = s.messages
      unfold pyDropIdx
      rw [if_pos (by omega)]
      rfl
    · rfl
  · rw [if_neg h0]
    by_cases hl : limit < s.messages.length
    · rw [if_pos hl, pyDropIdx_neg s.messages limit (by omega)]
    · rw [if_neg hl]
      rw [show s.messages.length - limit = 0 by omega, List.drop_zero]

/-- Claim C10: `is_expired` is true exactly when strictly more than
`timeout_seconds` have elapsed since `last_activity`; it is a plain
predicate that mutates nothing, and it is monotonic in elapsed time —
once expired, it stays expired at every later instant if the session
sees no further activity. -/
theorem is_expired_spec (s : DialogueSession) (t : Int) (now now2 : Timestamp) :
    (s.is_expired t now = true ↔ t < now - s.last_activity) ∧
    (now ≤ now2 → s.is_expired t now = true → s.is_expired t now2 = true) := by
  constructor
  · simp [DialogueSession.is_expired]
  · intro h1 h2
    simp only [DialogueSession.is_expired, decide_eq_true_eq] at h2 ⊢
    exact lt_of_lt_of_le h2 (sub_le_sub_right h1 s.last_activity)

/-- Witness for C10: the concrete session, expired at time 20, is
still expired at the later time 30. -/
theorem is_expired_spec_witness : demoDialogueOne.is_expired 10 30 = true :=
  (is_expired_spec demoDialogueOne 10 20 30).2 (by decide) (by decide)
